import Mathlib

/-!
Shallow embedding of the Objektverwaltung core.

This file embeds the session-authority and object-lifecycle logic of the
repository (convex/auth, convex/schema, convex/admin, convex/objectImages)
as executable Lean definitions over an explicit database state, and proves
the spec's claims about them.

Modelling conventions:
* Document ids (`_id`) are `Nat`; `ctx.db.get` and `.withIndex(...).first()`
  become `List.find?` over the corresponding table.
* `Date.now()` becomes an explicit `now : Nat` argument (milliseconds).
* Random token generation becomes an explicit `newToken : String` argument.
* A Convex mutation that throws rolls the transaction back, so mutations
  return `Except String DB`: the `.error` constructor carries no state,
  i.e. an error leaves the database unchanged.
* Fresh `_id`s for inserts come from a `nextId` counter carried in `DB`.
-/

namespace Objektverwaltung

/-- The `role` field of a user: `v.union(v.literal("user"), v.literal("admin"))`. -/
inductive Role where
  | user
  | admin
deriving DecidableEq, Repr

/-- The six object status literals of `convex/schema.ts`. -/
inductive Status where
  | entwurf
  | freigegeben
  | inUeberpruefung
  | zurueckgewiesen
  | abgeschlossen
  | geloescht
deriving DecidableEq, Repr

/-- The German string literal each status stands for in the source. -/
def statusStr : Status → String
  | .entwurf => "entwurf"
  | .freigegeben => "freigegeben"
  | .inUeberpruefung => "in_überprüfung"
  | .zurueckgewiesen => "zurückgewiesen"
  | .abgeschlossen => "abgeschlossen"
  | .geloescht => "gelöscht"

/-- Image section: `v.union(v.literal("keys"), v.literal("rooms"), v.literal("meters"))`. -/
inductive ImgSection where
  | keys
  | rooms
  | meters
deriving DecidableEq, Repr

/-- A row of the `users` table. -/
structure User where
  id : Nat
  email : String
  password : String
  name : String
  role : Role
  active : Bool
  isTempPassword : Bool
deriving DecidableEq, Repr

/-- A row of the `sessions` table. -/
structure Session where
  id : Nat
  userId : Nat
  token : String
  expiresAt : Nat
deriving DecidableEq, Repr

/-- The `address` object embedded in an object row. -/
structure Address where
  street : String
  zipCode : String
  city : String
  additional : Option String
deriving DecidableEq, Repr

/-- An entry of the `people` array. -/
structure Person where
  name : String
  function : String
  address : Option String
  phone : Option String
  email : Option String
deriving DecidableEq, Repr

/-- An entry of the `keys` array. -/
structure KeyItem where
  type : String
  count : Int
  images : Option (List Nat)
deriving DecidableEq, Repr

/-- An entry of the `rooms` array. -/
structure RoomItem where
  name : String
  equipment : Option String
  condition : Option String
  images : Option (List Nat)
deriving DecidableEq, Repr

/-- An entry of the `meters` array. -/
structure MeterItem where
  type : String
  number : String
  reading : String
  images : Option (List Nat)
deriving DecidableEq, Repr

/-- A row of the `objects` table. -/
structure Obj where
  id : Nat
  title : String
  address : Address
  floor : Option Int
  room : Option String
  createdBy : Nat
  assignedTo : Option (List Nat)
  status : Status
  notes : Option String
  signature : Option String
  people : Option (List Person)
  keys : Option (List KeyItem)
  rooms : Option (List RoomItem)
  meters : Option (List MeterItem)
deriving DecidableEq, Repr

/-- A row of the `objectImages` table. -/
structure ObjectImage where
  id : Nat
  objectId : Nat
  «section» : ImgSection
  sectionIndex : Option Int
  storageId : Nat
  filename : String
  createdAt : Nat
deriving DecidableEq, Repr

/-- The database state: the four application tables plus a fresh-id counter. -/
structure DB where
  users : List User
  sessions : List Session
  objects : List Obj
  objectImages : List ObjectImage
  nextId : Nat
deriving DecidableEq, Repr

/-- Model of `ctx.db.query("users").withIndex("by_email", ...).first()`. -/
def findUserByEmail (db : DB) (email : String) : Option User :=
  db.users.find? (fun u => u.email == email)

/-- Model of `ctx.db.query("sessions").withIndex("by_token", ...).first()`. -/
def findSessionByToken (db : DB) (token : String) : Option Session :=
  db.sessions.find? (fun s => s.token == token)

/-- Model of `ctx.db.get(userId)` on the `users` table. -/
def getUser (db : DB) (userId : Nat) : Option User :=
  db.users.find? (fun u => u.id == userId)

/-- Model of `ctx.db.get(objectId)` on the `objects` table. -/
def getObj (db : DB) (objectId : Nat) : Option Obj :=
  db.objects.find? (fun o => o.id == objectId)

/-- Model of `ctx.db.get(imageId)` on the `objectImages` table. -/
def getImage (db : DB) (imageId : Nat) : Option ObjectImage :=
  db.objectImages.find? (fun i => i.id == imageId)

/-- The `getUserFromSession` helper shared by auth.ts, schema.ts and
objectImages.ts: resolve the token to a session, reject it when absent or
`session.expiresAt < Date.now()`, then `ctx.db.get(session.userId)` (which
may itself be `null` when the user was deleted). -/
def getUserFromSession (db : DB) (now : Nat) (token : String) : Option User :=
  match findSessionByToken db token with
  | none => none
  | some session =>
    if session.expiresAt < now then none
    else getUser db session.userId

/-- Result of `validateSession`. -/
structure SessionInfo where
  user : User
  needsPasswordChange : Bool
deriving DecidableEq, Repr

/-- Query `validateSession` (auth): null for an invalid session, otherwise the user
together with `needsPasswordChange = user.isTempPassword`. -/
def validateSession (db : DB) (now : Nat) (token : String) : Option SessionInfo :=
  match getUserFromSession db now token with
  | none => none
  | some user => some ⟨user, user.isTempPassword⟩

/-- Session lifetime in milliseconds: `7 * 24 * 60 * 60 * 1000`. -/
def sessionLifetime : Nat := 7 * 24 * 60 * 60 * 1000

/-- Result of a successful `login`. -/
structure LoginResult where
  token : String
  user : User
  needsPasswordChange : Bool
deriving DecidableEq, Repr

/-- Mutation `login` (auth): look the user up by email, reject unknown email, then an
inactive account, then a password mismatch; on success insert a fresh
session with a 7-day expiry. -/
def login (db : DB) (now : Nat) (newToken : String) (email password : String) :
    Except String (LoginResult × DB) :=
  match findUserByEmail db email with
  | none => .error "Invalid email or password."
  | some user =>
    if !user.active then
      .error "Account is not active. Please contact an administrator."
    else if user.password != password then
      .error "Invalid email or password."
    else
      let session : Session :=
        { id := db.nextId, userId := user.id, token := newToken,
          expiresAt := now + sessionLifetime }
      .ok (⟨newToken, user, user.isTempPassword⟩,
        { db with sessions := db.sessions ++ [session], nextId := db.nextId + 1 })

/-- Result of a successful `signup`. -/
structure SignupResult where
  token : String
  user : User
deriving DecidableEq, Repr

/-- The `ctx.db.patch` applied to the provisioned user by `signup`. -/
def signupPatch (password name : String) (u : User) : User :=
  { u with password := password, name := name, active := true, isTempPassword := false }

/-- Mutation `signup` (auth): requires a provisioned placeholder (email present,
`active = false`, `isTempPassword = true`); activates it, sets password and
name, clears the temp flag, re-reads the patched row and inserts a session. -/
def signup (db : DB) (now : Nat) (newToken : String) (email password name : String) :
    Except String (SignupResult × DB) :=
  match findUserByEmail db email with
  | none =>
    .error "Registration not allowed. Contact an administrator to create your account first."
  | some existingUser =>
    if existingUser.active || !existingUser.isTempPassword then
      .error "Account already exists or registration not allowed."
    else
      let db1 : DB :=
        { db with
          users := db.users.map (fun u =>
            if u.id == existingUser.id then signupPatch password name u else u) }
      match getUser db1 existingUser.id with
      | none => .error "Failed to create account."
      | some updatedUser =>
        let session : Session :=
          { id := db1.nextId, userId := updatedUser.id, token := newToken,
            expiresAt := now + sessionLifetime }
        .ok (⟨newToken, updatedUser⟩,
          { db1 with sessions := db1.sessions ++ [session], nextId := db1.nextId + 1 })

/-- Mutation `logout` (auth): delete the session for the token when present; idempotent. -/
def logout (db : DB) (token : String) : Except String DB :=
  match findSessionByToken db token with
  | none => .ok db
  | some session =>
    .ok { db with sessions := db.sessions.filter (fun s => s.id != session.id) }

/-! Object lifecycle (convex/schema.ts). -/

/-- Char-list version of a leading match, used to model JS `String.includes`. -/
def startsWithChars : List Char → List Char → Bool
  | [], _ => true
  | _ :: _, [] => false
  | a :: as, b :: bs => a == b && startsWithChars as bs

/-- JS `haystack.includes(needle)` on char lists. -/
def hasSubChars (needle : List Char) : List Char → Bool
  | [] => startsWithChars needle []
  | c :: rest => startsWithChars needle (c :: rest) || hasSubChars needle rest

/-- JS `s.includes(pat)`. -/
def strIncludes (s pat : String) : Bool :=
  hasSubChars pat.data s.data

/-- The membership test `object.assignedTo && object.assignedTo.includes(user._id)`. -/
def assignedIncludes (o : Obj) (uid : Nat) : Bool :=
  match o.assignedTo with
  | some l => l.contains uid
  | none => false

/-- Result record of the `canAccessObject` helper in schema.ts. -/
structure AccessCheck where
  canAccess : Bool
  user : Option User
  object : Option Obj
deriving DecidableEq, Repr

/-- Helper `canAccessObject` (schema.ts): resolve the session, fetch the object,
grant access to admins and to the creator or an assigned user. -/
def canAccessObject (db : DB) (now : Nat) (token : String) (objectId : Nat) : AccessCheck :=
  match getUserFromSession db now token with
  | none => ⟨false, none, none⟩
  | some user =>
    match getObj db objectId with
    | none => ⟨false, some user, none⟩
    | some object =>
      if user.role == .admin then ⟨true, some user, some object⟩
      else
        ⟨object.createdBy == user.id || assignedIncludes object user.id,
          some user, some object⟩

/-- An element of the `getObjects` / `getObject` result: the object spread
together with `creatorName` and the resolved `assignedUsers`. -/
structure ObjListEntry where
  obj : Obj
  creatorName : String
  assignedUsers : List (Nat × String)
deriving DecidableEq, Repr

/-- Model of `creator?.name || "Unknown"` followed by the `assignedUsers` resolution in
`getObjects`: JS `||` falls back on the empty string too. -/
def enrichObject (db : DB) (o : Obj) : ObjListEntry :=
  let creatorName :=
    match getUser db o.createdBy with
    | some c => if c.name == "" then "Unknown" else c.name
    | none => "Unknown"
  let assignedUsers :=
    (match o.assignedTo with
     | some ids => ids.filterMap (fun uid => (getUser db uid).map (fun u => (u.id, u.name)))
     | none => [])
  ⟨o, creatorName, assignedUsers⟩

/-- The search predicate of `getObjects`: case-insensitive substring match on
title, street and city. -/
def searchMatches (searchLower : String) (o : Obj) : Bool :=
  strIncludes o.title.toLower searchLower ||
  strIncludes o.address.street.toLower searchLower ||
  strIncludes o.address.city.toLower searchLower

/-- Query `getObjects` (schema.ts): admins see every object, others only objects they
created or are assigned to; the status and creator filters apply only to
admins (JS truthiness: an empty string disables them); a search of length ≥ 3
filters by substring; deleted objects are hidden from non-admins. -/
def getObjects (db : DB) (now : Nat) (token : String)
    (search statusFilter userFilter : Option String) :
    Except String (List ObjListEntry) :=
  match getUserFromSession db now token with
  | none => .error "Invalid session"
  | some user =>
    let objects0 : List Obj :=
      if user.role == .admin then db.objects
      else db.objects.filter (fun o =>
        o.createdBy == user.id || assignedIncludes o user.id)
    let objects1 : List Obj :=
      match statusFilter with
      | some sf =>
        if sf != "" && user.role == .admin then
          objects0.filter (fun o => statusStr o.status == sf)
        else objects0
      | none => objects0
    let objects2 : List Obj :=
      match userFilter with
      | some uf =>
        if uf != "" && user.role == .admin then
          objects1.filter (fun o => toString o.createdBy == uf)
        else objects1
      | none => objects1
    let objects3 : List Obj :=
      match search with
      | some s =>
        if s.length ≥ 3 then objects2.filter (searchMatches s.toLower)
        else objects2
      | none => objects2
    let objects4 : List Obj :=
      if user.role != .admin then objects3.filter (fun o => o.status != .geloescht)
      else objects3
    .ok (objects4.map (enrichObject db))

/-- The optional-field arguments of `updateObject`. -/
structure UpdateArgs where
  title : Option String := none
  address : Option Address := none
  floor : Option Int := none
  room : Option String := none
  assignedTo : Option (List Nat) := none
  notes : Option String := none
  signature : Option String := none
  people : Option (List Person) := none
  keys : Option (List KeyItem) := none
  rooms : Option (List RoomItem) := none
  meters : Option (List MeterItem) := none
deriving DecidableEq, Repr

/-- The `updateData` patch of `updateObject`: each argument that is present
overwrites the stored field, absent arguments leave it unchanged. -/
def applyUpdate (a : UpdateArgs) (o : Obj) : Obj :=
  { o with
    title := match a.title with | some x => x | none => o.title,
    address := match a.address with | some x => x | none => o.address,
    floor := match a.floor with | some x => some x | none => o.floor,
    room := match a.room with | some x => some x | none => o.room,
    assignedTo := match a.assignedTo with | some x => some x | none => o.assignedTo,
    notes := match a.notes with | some x => some x | none => o.notes,
    signature := match a.signature with | some x => some x | none => o.signature,
    people := match a.people with | some x => some x | none => o.people,
    keys := match a.keys with | some x => some x | none => o.keys,
    rooms := match a.rooms with | some x => some x | none => o.rooms,
    meters := match a.meters with | some x => some x | none => o.meters }

/-- Model of `ctx.db.patch(objectId, ...)` on the `objects` table. -/
def patchObj (db : DB) (objectId : Nat) (f : Obj → Obj) : DB :=
  { db with objects := db.objects.map (fun o => if o.id == objectId then f o else o) }

/-- Mutation `updateObject` (schema.ts): requires access via `canAccessObject`, then
rejects released and under-review objects for non-admins and completed
objects for everybody, then patches the provided fields. -/
def updateObject (db : DB) (now : Nat) (token : String) (objectId : Nat)
    (args : UpdateArgs) : Except String DB :=
  match canAccessObject db now token objectId with
  | ⟨canAccess, userOpt, objectOpt⟩ =>
    match userOpt, objectOpt with
    | some user, some object =>
      if !canAccess then
        .error "Access denied or object not found"
      else if object.status == .freigegeben && user.role != .admin then
        .error "Object is released and cannot be edited by users"
      else if object.status == .inUeberpruefung && user.role != .admin then
        .error "Object is under review and can only be edited by admin"
      else if object.status == .abgeschlossen then
        .error "Object is completed and cannot be edited"
      else
        .ok (patchObj db objectId (applyUpdate args))
    | _, _ => .error "Access denied or object not found"

/-- Mutation `updateObjectStatus` (schema.ts): the target statuses `in_überprüfung`,
`abgeschlossen` and `gelöscht` are admin-only; `freigegeben` additionally
requires creator/assignee access for non-admins; no other check — in
particular the object's current status is never consulted. -/
def updateObjectStatus (db : DB) (now : Nat) (token : String) (objectId : Nat)
    (status : Status) : Except String DB :=
  match getUserFromSession db now token with
  | none => .error "Invalid session"
  | some user =>
    match getObj db objectId with
    | none => .error "Object not found"
    | some object =>
      if (status == .inUeberpruefung || status == .abgeschlossen || status == .geloescht)
          && user.role != .admin then
        .error "Only admin can set this status"
      else if status == .freigegeben && user.role != .admin
          && !(object.createdBy == user.id || assignedIncludes object user.id) then
        .error "Access denied"
      else
        .ok (patchObj db objectId (fun o => { o with status := status }))

/-- Mutation `deleteObject` (schema.ts): soft delete; only an admin or the creator may
do it, and the current status is never consulted. -/
def deleteObject (db : DB) (now : Nat) (token : String) (objectId : Nat) :
    Except String DB :=
  match getUserFromSession db now token with
  | none => .error "Invalid session"
  | some user =>
    match getObj db objectId with
    | none => .error "Object not found"
    | some object =>
      if user.role != .admin && object.createdBy != user.id then
        .error "Access denied"
      else
        .ok (patchObj db objectId (fun o => { o with status := .geloescht }))

/-- A row of the `getAllUsers` (schema.ts) projection: active users only, and
only `_id`, `name`, `email`, `role`. -/
structure PublicUser where
  id : Nat
  name : String
  email : String
  role : Role
deriving DecidableEq, Repr

/-- The projection of the general `getAllUsers`: `{_id, name, email, role}`. -/
def toPublicUser (u : User) : PublicUser := ⟨u.id, u.name, u.email, u.role⟩

/-- Query `getAllUsers` (schema.ts): any valid session; active users projected to
`{_id, name, email, role}`. -/
def getAllUsers (db : DB) (now : Nat) (token : String) :
    Except String (List PublicUser) :=
  match getUserFromSession db now token with
  | none => .error "Invalid session"
  | some _ =>
    .ok ((db.users.filter (fun u => u.active)).map toPublicUser)

/-! Object images (convex/objectImages.ts). -/

/-- The access test repeated in objectImages.ts:
creator, assignee, or admin. -/
def imageCanAccess (user : User) (o : Obj) : Bool :=
  o.createdBy == user.id || assignedIncludes o user.id || user.role == .admin

/-- Mutation `addObjectImage` (objectImages.ts): requires a valid session, an existing
object, creator/assignee/admin access, and an editable status (not completed;
released and under-review only for admins); then inserts the image row. -/
def addObjectImage (db : DB) (now : Nat) (token : String) (objectId : Nat)
    (sec : ImgSection) (sectionIndex : Option Int) (storageId : Nat)
    (filename : String) : Except String DB :=
  match getUserFromSession db now token with
  | none => .error "Invalid session"
  | some user =>
    match getObj db objectId with
    | none => .error "Object not found"
    | some object =>
      if !imageCanAccess user object then
        .error "Not authorized"
      else if object.status == .abgeschlossen then
        .error "Cannot edit completed object"
      else if object.status == .freigegeben && user.role != .admin then
        .error "Cannot edit released object"
      else if object.status == .inUeberpruefung && user.role != .admin then
        .error "Cannot edit object under review"
      else
        .ok { db with
          objectImages := db.objectImages ++
            [{ id := db.nextId, objectId := objectId, «section» := sec,
               sectionIndex := sectionIndex, storageId := storageId,
               filename := filename, createdAt := now }],
          nextId := db.nextId + 1 }

/-- Mutation `deleteObjectImage` (objectImages.ts): same session/access/status gate as
`addObjectImage`, on the object the image belongs to; then deletes the image
row (the blob-store delete is outside this model). -/
def deleteObjectImage (db : DB) (now : Nat) (token : String) (imageId : Nat) :
    Except String DB :=
  match getUserFromSession db now token with
  | none => .error "Invalid session"
  | some user =>
    match getImage db imageId with
    | none => .error "Image not found"
    | some image =>
      match getObj db image.objectId with
      | none => .error "Object not found"
      | some object =>
        if !imageCanAccess user object then
          .error "Not authorized"
        else if object.status == .abgeschlossen then
          .error "Cannot edit completed object"
        else if object.status == .freigegeben && user.role != .admin then
          .error "Cannot edit released object"
        else if object.status == .inUeberpruefung && user.role != .admin then
          .error "Cannot edit object under review"
        else
          .ok { db with objectImages := db.objectImages.filter (fun i => i.id != imageId) }

/-! Admin operations (convex/admin.ts). -/

namespace Admin

/-- Helper `requireAdmin` (admin.ts): resolve the token, reject missing or expired
sessions, then reject a missing user or a non-admin role. -/
def requireAdmin (db : DB) (now : Nat) (token : String) : Except String User :=
  match findSessionByToken db token with
  | none => .error "Invalid session."
  | some session =>
    if session.expiresAt < now then .error "Invalid session."
    else
      match getUser db session.userId with
      | none => .error "Admin access required."
      | some user =>
        if user.role != .admin then .error "Admin access required."
        else .ok user

/-- The `password: "***"` masking of the admin `getAllUsers` ("Hide password
in admin view"): the user spread with the password overwritten. -/
def maskPassword (u : User) : User := { u with password := "***" }

/-- The admin user-search predicate: case-insensitive substring match on
email or name. -/
def userSearchMatches (searchLower : String) (u : User) : Bool :=
  strIncludes u.email.toLower searchLower || strIncludes u.name.toLower searchLower

/-- Query `getAllUsers` (admin.ts): admin only; optional search (≥ 3 chars) over
email and name; every returned row is the user spread with
`password: "***"`. -/
def getAllUsers (db : DB) (now : Nat) (token : String) (search : Option String) :
    Except String (List User) :=
  match requireAdmin db now token with
  | .error e => .error e
  | .ok _ =>
    .ok ((match search with
      | some s =>
        if s.length ≥ 3 then db.users.filter (userSearchMatches s.toLower)
        else db.users
      | none => db.users).map maskPassword)

/-- Mutation `deleteUser` (admin.ts): admin only; deletes every session of the target
user, then the user row itself. `ctx.db.delete` on a missing document throws,
and the transaction then rolls back, so a missing target is an error with no
effect. -/
def deleteUser (db : DB) (now : Nat) (token : String) (userId : Nat) :
    Except String DB :=
  match requireAdmin db now token with
  | .error e => .error e
  | .ok _ =>
    if db.users.any (fun u => u.id == userId) then
      .ok { db with
        sessions := db.sessions.filter (fun s => s.userId != userId),
        users := db.users.filter (fun u => u.id != userId) }
    else .error "Delete on nonexistent document"

/-- Mutation `resetPassword` (admin.ts): admin only; patches the target user back to a
temp password and deletes every session of that user. `ctx.db.patch` on a
missing document throws, rolling the transaction back. -/
def resetPassword (db : DB) (now : Nat) (token : String) (userId : Nat)
    (newTempPassword : String) : Except String DB :=
  match requireAdmin db now token with
  | .error e => .error e
  | .ok _ =>
    if db.users.any (fun u => u.id == userId) then
      .ok { db with
        users := db.users.map (fun u =>
          if u.id == userId then
            { u with password := newTempPassword, isTempPassword := true }
          else u),
        sessions := db.sessions.filter (fun s => s.userId != userId) }
    else .error "Patch on nonexistent document"

end Admin

/-! Derived observations and concrete example data. -/

/-- The status of object `objectId` after a mutation, `none` when the mutation
failed (so the state is unchanged) or the object is absent. -/
def statusAfter (r : Except String DB) (objectId : Nat) : Option Status :=
  match r with
  | .error _ => none
  | .ok db => (getObj db objectId).map Obj.status

/-- Erase the password field. Two user tables with equal images under
`scrubUser` differ at most in stored passwords. -/
def scrubUser (u : User) : User := { u with password := "" }

/-- Example data: an admin account. -/
def exAdmin : User := ⟨1, "admin@ex.de", "pw", "Admin", .admin, true, false⟩

/-- Example data: a regular account, creator of both example objects. -/
def exUser : User := ⟨2, "user@ex.de", "pw", "Uli", .user, true, false⟩

/-- Example data: a regular account assigned to the completed object only. -/
def exStranger : User := ⟨3, "fremd@ex.de", "pw", "Sam", .user, true, false⟩

/-- Example data: an address. -/
def exAddr : Address := ⟨"Weg 1", "12345", "Berlin", none⟩

/-- Example data: a completed object created by `exUser`, assigned to
`exStranger`. -/
def exCompleted : Obj :=
  ⟨10, "Haus", exAddr, none, none, 2, some [3], .abgeschlossen,
    none, none, none, none, none, none⟩

/-- Example data: a released object created by `exUser`, assigned to nobody. -/
def exReleased : Obj :=
  ⟨11, "Hof", exAddr, none, none, 2, none, .freigegeben,
    none, none, none, none, none, none⟩

/-- Example data: an image attached to the completed object. -/
def exImage : ObjectImage := ⟨200, 10, .keys, some 0, 500, "f.jpg", 5⟩

/-- Example database: three users with live sessions (all expiring at 1000),
the two example objects and one image. -/
def exDB : DB :=
  ⟨[exAdmin, exUser, exStranger],
   [⟨100, 1, "atok", 1000⟩, ⟨101, 2, "utok", 1000⟩, ⟨102, 3, "stok", 1000⟩],
   [exCompleted, exReleased], [exImage], 300⟩

/-- Example data: an inactive account with a known password. -/
def exInactive : User := ⟨4, "ruht@ex.de", "pw", "Ina", .user, false, false⟩

/-- Example data: an admin-provisioned placeholder awaiting signup. -/
def exProvisioned : User := ⟨5, "neu@ex.de", "temp123", "", .user, false, true⟩

/-- Example database extending `exDB` with the inactive and the provisioned
account. -/
def exDB5 : DB := { exDB with users := exDB.users ++ [exInactive, exProvisioned] }

/-- Example database with a session whose user record does not exist. -/
def exDBorphan : DB :=
  { exDB with sessions := exDB.sessions ++ [⟨103, 9, "otok", 1000⟩] }

/-- The state `Admin.deleteUser exDB now "atok" 2` produces: user 2 and both
of that user's sessions are gone. -/
def exDBdel : DB :=
  ⟨[exAdmin, exStranger],
   [⟨100, 1, "atok", 1000⟩, ⟨102, 3, "stok", 1000⟩],
   [exCompleted, exReleased], [exImage], 300⟩

/-- The state `Admin.resetPassword exDB now "atok" 2 "tmp9"` produces: user 2
holds a temp password again and that user's sessions are gone. -/
def exDBreset : DB :=
  ⟨[exAdmin, { exUser with password := "tmp9", isTempPassword := true }, exStranger],
   [⟨100, 1, "atok", 1000⟩, ⟨102, 3, "stok", 1000⟩],
   [exCompleted, exReleased], [exImage], 300⟩

/-- Example database identical to `exDB` except for every stored password. -/
def exDBpw : DB :=
  { exDB with users := exDB.users.map (fun u => { u with password := "geheim" }) }

/-- The ownership restriction `getObjects` applies to non-admin actors:
objects the actor created or is assigned to. -/
def nonAdminOwned (db : DB) (u : User) : List Obj :=
  db.objects.filter (fun o => o.createdBy == u.id || assignedIncludes o u.id)

/-- The search step of `getObjects`: a search of length ≥ 3 filters by
`searchMatches`, anything else is a no-op. -/
def searchStep (search : Option String) (l : List Obj) : List Obj :=
  match search with
  | some s => if s.length ≥ 3 then l.filter (searchMatches s.toLower) else l
  | none => l

/-! Claims. -/

/-- For a non-admin actor the whole `getObjects` pipeline collapses to
ownership filter, search step, and the deleted-status filter: the status and
creator filters are skipped regardless of their arguments. -/
theorem getObjects_nonadmin_eq (db : DB) (now : Nat) (token : String)
    (search sf uf : Option String) (u : User)
    (hu : getUserFromSession db now token = some u)
    (hrole : u.role ≠ Role.admin) :
    getObjects db now token search sf uf =
      Except.ok
        (((searchStep search (nonAdminOwned db u)).filter
            (fun o => o.status != Status.geloescht)).map (enrichObject db)) := by
  have hadm : (u.role == Role.admin) = false := by simp [hrole]
  have hrole' : (u.role != Role.admin) = true := by simp [hrole]
  cases sf <;> cases uf <;> cases search <;>
    simp [getObjects, hu, hadm, hrole', nonAdminOwned, searchStep]

@[simp]
theorem enrichObject_obj (db : DB) (o : Obj) : (enrichObject db o).obj = o := rfl

/-- C4: for every non-admin actor with a valid session, the `getObjects`
result is unaffected by the `statusFilter` and `userFilter` arguments
(silently ignored, no error), contains only objects the actor created or is
assigned to, and never contains a deleted object. -/
theorem C4_theorem (db : DB) (now : Nat) (token : String)
    (search sf uf : Option String) (u : User)
    (hu : getUserFromSession db now token = some u)
    (hrole : u.role ≠ Role.admin) :
    getObjects db now token search sf uf = getObjects db now token search none none ∧
    (∀ L, getObjects db now token search sf uf = Except.ok L →
      ∀ e ∈ L, (e.obj.createdBy = u.id ∨ assignedIncludes e.obj u.id = true) ∧
        e.obj.status ≠ Status.geloescht) := by
  constructor
  · rw [getObjects_nonadmin_eq db now token search sf uf u hu hrole,
      getObjects_nonadmin_eq db now token search none none u hu hrole]
  · intro L hL e he
    rw [getObjects_nonadmin_eq db now token search sf uf u hu hrole] at hL
    injection hL with h
    subst h
    obtain ⟨o, ho4, rfl⟩ := List.mem_map.mp he
    obtain ⟨ho3, hdel⟩ := List.mem_filter.mp ho4
    have hown : o ∈ nonAdminOwned db u := by
      rcases search with _ | s
      · simpa [searchStep] using ho3
      · simp only [searchStep] at ho3
        split at ho3
        · exact (List.mem_filter.mp ho3).1
        · exact ho3
    have hp := (List.mem_filter.mp hown).2
    constructor
    · simpa using hp
    · simpa using hdel

/-- C4 witness: for the non-admin creator session `"utok"` on `exDB`, passing
a status filter and a user filter leaves the result unchanged. -/
theorem C4_witness :
    getObjects exDB 0 "utok" none (some "abgeschlossen") (some "1") =
      getObjects exDB 0 "utok" none none none :=
  (C4_theorem exDB 0 "utok" none (some "abgeschlossen") (some "1") exUser rfl
    (by decide)).1

/-- C5: for every user record with `active = false` and every password
argument — matching the stored credential or not — `login` with that user's
email fails with the inactive-account error, not the invalid-credentials
error. -/
theorem C5_theorem (db : DB) (now : Nat) (newToken email password : String)
    (u : User)
    (hu : findUserByEmail db email = some u)
    (hact : u.active = false) :
    login db now newToken email password =
      Except.error "Account is not active. Please contact an administrator." := by
  unfold login
  rw [hu]
  simp [hact]

/-- C5 witness: `exInactive` has `active = false` and stored password `"pw"`;
login with the correct password still fails with the inactive-account
error. -/
theorem C5_witness :
    login exDB5 0 "tk" "ruht@ex.de" "pw" =
      Except.error "Account is not active. Please contact an administrator." :=
  C5_theorem exDB5 0 "tk" "ruht@ex.de" "pw" exInactive rfl rfl

/-- C6 counterexample: the claim says a session with `expiresAt ≤ now` is
rejected, but the code tests `expiresAt < Date.now()` strictly: in `exDB` the
session for token `"utok"` has `expiresAt = 1000`, and at `now = 1000`
(so `expiresAt ≤ now`) `validateSession` still returns the user instead of
the claimed null. -/
theorem C6_counterexample :
    (findSessionByToken exDB "utok").map Session.expiresAt = some 1000 ∧
    validateSession exDB 1000 "utok" = some ⟨exUser, false⟩ :=
  ⟨rfl, rfl⟩

/-- C6 (amended): `validateSession` returns the null result for every token
absent from the session store, for every session with `expiresAt < now`
(strictly — at `expiresAt = now` the session is still accepted), and for a
session whose referenced user no longer exists; being total, it never raises
an error. -/
theorem C6_theorem (db : DB) (now : Nat) (token : String) :
    (findSessionByToken db token = none → validateSession db now token = none) ∧
    (∀ s, findSessionByToken db token = some s → s.expiresAt < now →
      validateSession db now token = none) ∧
    (∀ s, findSessionByToken db token = some s → getUser db s.userId = none →
      validateSession db now token = none) := by
  refine ⟨?_, ?_, ?_⟩
  · intro h
    unfold validateSession getUserFromSession
    rw [h]
  · intro s hs hexp
    unfold validateSession getUserFromSession
    rw [hs]
    simp [hexp]
  · intro s hs husr
    unfold validateSession getUserFromSession
    rw [hs]
    simp [husr]

/-- C6 witness: the three null cases of the amended claim on concrete data:
an unknown token, the `"utok"` session at `now = 2000 > 1000`, and the
orphaned session `"otok"` whose user id 9 does not exist. -/
theorem C6_witness :
    validateSession exDB 0 "nosuch" = none ∧
    validateSession exDB 2000 "utok" = none ∧
    validateSession exDBorphan 0 "otok" = none :=
  ⟨(C6_theorem exDB 0 "nosuch").1 rfl,
   (C6_theorem exDB 2000 "utok").2.1 ⟨101, 2, "utok", 1000⟩ rfl (by decide),
   (C6_theorem exDBorphan 0 "otok").2.2 ⟨103, 9, "otok", 1000⟩ rfl rfl⟩

/-- C1 counterexample: the claim says a completed object is fully frozen, but
neither `updateObjectStatus` nor `deleteObject` consults the current status:
in `exDB`, object 10 has status `abgeschlossen`, yet the admin session
`"atok"` moves it to `entwurf` and the creator session `"utok"` soft-deletes
it, both successfully. -/
theorem C1_counterexample :
    (getObj exDB 10).map Obj.status = some Status.abgeschlossen ∧
    (getUserFromSession exDB 0 "atok").map User.role = some Role.admin ∧
    statusAfter (updateObjectStatus exDB 0 "atok" 10 Status.entwurf) 10 =
      some Status.entwurf ∧
    statusAfter (deleteObject exDB 0 "utok" 10) 10 = some Status.geloescht :=
  ⟨rfl, rfl, rfl, rfl⟩

/-- C1 (amended): completed is frozen only against field and image edits;
`updateObjectStatus` and `deleteObject` never look at the current status, so
for every completed object and every actor with a valid session,
`updateObjectStatus` succeeds for any target status when the actor is an
admin, and `deleteObject` succeeds when the actor is an admin or the
creator, overwriting the completed status. -/
theorem C1_theorem (db : DB) (now : Nat) (token : String) (objectId : Nat)
    (st : Status) (u : User) (o : Obj)
    (hu : getUserFromSession db now token = some u)
    (ho : getObj db objectId = some o)
    (_hst : o.status = Status.abgeschlossen) :
    (u.role = Role.admin →
      updateObjectStatus db now token objectId st =
        Except.ok (patchObj db objectId (fun x => { x with status := st }))) ∧
    (u.role = Role.admin ∨ o.createdBy = u.id →
      deleteObject db now token objectId =
        Except.ok (patchObj db objectId
          (fun x => { x with status := Status.geloescht }))) := by
  constructor
  · intro hrole
    unfold updateObjectStatus
    rw [hu, ho]
    simp [hrole]
  · intro hacc
    unfold deleteObject
    rw [hu, ho]
    rcases hacc with h | h <;> simp [h]

/-- C1 witness: the amended claim at the concrete completed object 10 of
`exDB`: the admin session changes its status and the non-admin creator
session soft-deletes it. -/
theorem C1_witness :
    updateObjectStatus exDB 0 "atok" 10 Status.entwurf =
      Except.ok (patchObj exDB 10 (fun x => { x with status := Status.entwurf })) ∧
    deleteObject exDB 0 "utok" 10 =
      Except.ok (patchObj exDB 10 (fun x => { x with status := Status.geloescht })) :=
  ⟨(C1_theorem exDB 0 "atok" 10 Status.entwurf exAdmin exCompleted rfl rfl rfl).1 rfl,
   (C1_theorem exDB 0 "utok" 10 Status.entwurf exUser exCompleted rfl rfl rfl).2
     (Or.inr rfl)⟩

/-- C3 counterexample: the claim's transition matrix fails twice on `exDB`:
the stranger session `"stok"` (role `user`, neither creator nor assignee of
object 11) moves the released object 11 back to `entwurf` — a
released → draft transition by a non-admin — and the creator session
`"utok"` (role `user`) soft-deletes object 11 — a transition into `deleted`
by a non-admin. -/
theorem C3_counterexample :
    (getUserFromSession exDB 0 "stok").map User.role = some Role.user ∧
    (getObj exDB 11).map Obj.status = some Status.freigegeben ∧
    (getObj exDB 11).map Obj.createdBy = some 2 ∧
    (getObj exDB 11).map Obj.assignedTo = some none ∧
    statusAfter (updateObjectStatus exDB 0 "stok" 11 Status.entwurf) 11 =
      some Status.entwurf ∧
    (getUserFromSession exDB 0 "utok").map User.role = some Role.user ∧
    statusAfter (deleteObject exDB 0 "utok" 11) 11 = some Status.geloescht :=
  ⟨rfl, rfl, rfl, rfl, rfl, rfl, rfl⟩

/-- C3 (amended): the transition authorization the code actually enforces,
for any actor with a valid session and any existing object:
`updateObjectStatus` succeeds iff targets `in_überprüfung`, `abgeschlossen`
and `gelöscht` come from an admin and target `freigegeben` from an admin,
the creator or an assignee — targets `entwurf` and `zurückgewiesen` need no
role or access at all, and the current status is never consulted; and
`deleteObject` (the transition into `gelöscht`) succeeds iff the actor is an
admin or the creator. -/
theorem C3_theorem (db : DB) (now : Nat) (token : String) (objectId : Nat)
    (st : Status) (u : User) (o : Obj)
    (hu : getUserFromSession db now token = some u)
    (ho : getObj db objectId = some o) :
    ((updateObjectStatus db now token objectId st).isOk = true ↔
      ((st = Status.inUeberpruefung ∨ st = Status.abgeschlossen ∨ st = Status.geloescht) →
        u.role = Role.admin) ∧
      (st = Status.freigegeben →
        (u.role = Role.admin ∨ o.createdBy = u.id ∨ assignedIncludes o u.id = true))) ∧
    ((deleteObject db now token objectId).isOk = true ↔
      (u.role = Role.admin ∨ o.createdBy = u.id)) := by
  constructor
  · unfold updateObjectStatus
    rw [hu, ho]
    by_cases hadm : u.role = Role.admin
    · cases st <;> simp [hadm, Except.toBool]
    · cases st <;>
        by_cases hacc : (o.createdBy == u.id || assignedIncludes o u.id) = true <;>
          (simp_all [Except.toBool] <;>
           rcases hacc with h | h <;> simp [h, Except.toBool])
  · unfold deleteObject
    rw [hu, ho]
    by_cases hadm : u.role = Role.admin
    · simp [hadm, Except.toBool]
    · by_cases hcr : o.createdBy = u.id <;> simp_all [Except.toBool]

/-- C3 witness: the amended characterization at a concrete input — the
creator's session `"utok"` on object 11. -/
theorem C3_witness :
    ((updateObjectStatus exDB 0 "utok" 11 Status.geloescht).isOk = true ↔
      ((Status.geloescht = Status.inUeberpruefung ∨
        Status.geloescht = Status.abgeschlossen ∨
        Status.geloescht = Status.geloescht) → exUser.role = Role.admin) ∧
      (Status.geloescht = Status.freigegeben →
        (exUser.role = Role.admin ∨ exReleased.createdBy = exUser.id ∨
          assignedIncludes exReleased exUser.id = true))) ∧
    ((deleteObject exDB 0 "utok" 11).isOk = true ↔
      (exUser.role = Role.admin ∨ exReleased.createdBy = exUser.id)) :=
  C3_theorem exDB 0 "utok" 11 Status.geloescht exUser exReleased rfl rfl

/-- C2: for every completed object and every actor with a valid session who
can access it (creator, assignee or admin), `updateObject`,
`addObjectImage` and `deleteObjectImage` all fail with the edit-forbidden
error for completed objects; since a failed mutation rolls back, the object
and its image rows are unchanged. -/
theorem C2_theorem (db : DB) (now : Nat) (token : String) (objectId imageId : Nat)
    (a : UpdateArgs) (sec : ImgSection) (si : Option Int) (stId : Nat)
    (fn : String) (u : User) (o : Obj) (img : ObjectImage)
    (hu : getUserFromSession db now token = some u)
    (ho : getObj db objectId = some o)
    (hacc : imageCanAccess u o = true)
    (hst : o.status = Status.abgeschlossen)
    (himg : getImage db imageId = some img)
    (hio : img.objectId = objectId) :
    updateObject db now token objectId a =
      Except.error "Object is completed and cannot be edited" ∧
    addObjectImage db now token objectId sec si stId fn =
      Except.error "Cannot edit completed object" ∧
    deleteObjectImage db now token imageId =
      Except.error "Cannot edit completed object" := by
  refine ⟨?_, ?_, ?_⟩
  · unfold updateObject canAccessObject
    rw [hu, ho]
    by_cases hadm : u.role = Role.admin
    · simp [hadm, hst]
    · have hacc' : (o.createdBy == u.id || assignedIncludes o u.id) = true := by
        simpa [imageCanAccess, hadm] using hacc
      simp [hadm, hst, hacc']
  · unfold addObjectImage
    rw [hu, ho]
    simp [hacc, hst]
  · unfold deleteObjectImage
    rw [hu, himg]
    simp [hio, ho, hacc, hst]

/-- C2 witness: the three edit operations on the concrete completed object 10
of `exDB` under the admin session, with image 200 attached to it. -/
theorem C2_witness :
    updateObject exDB 0 "atok" 10 {} =
      Except.error "Object is completed and cannot be edited" ∧
    addObjectImage exDB 0 "atok" 10 ImgSection.keys none 501 "g.jpg" =
      Except.error "Cannot edit completed object" ∧
    deleteObjectImage exDB 0 "atok" 200 =
      Except.error "Cannot edit completed object" :=
  C2_theorem exDB 0 "atok" 10 200 {} ImgSection.keys none 501 "g.jpg"
    exAdmin exCompleted exImage rfl rfl rfl rfl rfl rfl

/-- Finding by id in a table patched at that id, when ids are unique and the
patch preserves ids, yields the patched row. -/
theorem find_patched (f : User → User) (hf : ∀ x, (f x).id = x.id) :
    ∀ (l : List User) (u : User), u ∈ l →
      List.Pairwise (fun a b => a.id ≠ b.id) l →
      (l.map (fun x => if x.id == u.id then f x else x)).find?
          (fun x => x.id == u.id) = some (f u) := by
  intro l
  induction l with
  | nil => intro u hmem _; cases hmem
  | cons a t ih =>
    intro u hmem huniq
    obtain ⟨ha, ht⟩ := List.pairwise_cons.mp huniq
    by_cases hid : a.id = u.id
    · have hua : u = a := by
        rcases List.mem_cons.mp hmem with h | h
        · exact h
        · exact absurd hid (ha u h)
      subst hua
      have hgu : (if (u.id == u.id) = true then f u else u) = f u := by simp
      rw [List.map_cons, hgu, List.find?_cons_of_pos _ (by simp [hf])]
    · have hmem' : u ∈ t := by
        rcases List.mem_cons.mp hmem with h | h
        · exact absurd (h ▸ rfl) hid
        · exact h
      have hga : (if (a.id == u.id) = true then f a else a) = a := by simp [hid]
      rw [List.map_cons, hga, List.find?_cons_of_neg _ (by simp [hid])]
      exact ih u hmem' ht

/-- C7: `signup` succeeds iff a user with the email exists, inactive, with a
temp password; on success (stated here under unique user ids, the store's
primary-key guarantee) it stores the chosen password and name, sets
`active`, clears `isTempPassword` and inserts one new session; for an
unknown, active, or non-temp-password email it fails with the corresponding
registration error, leaving the state unchanged. -/
theorem C7_theorem (db : DB) (now : Nat) (newToken email password name : String) :
    (findUserByEmail db email = none →
      signup db now newToken email password name =
        Except.error
          "Registration not allowed. Contact an administrator to create your account first.") ∧
    (∀ u, findUserByEmail db email = some u →
      u.active = true ∨ u.isTempPassword = false →
      signup db now newToken email password name =
        Except.error "Account already exists or registration not allowed.") ∧
    (∀ u, findUserByEmail db email = some u →
      u.active = false → u.isTempPassword = true →
      List.Pairwise (fun a b => a.id ≠ b.id) db.users →
      signup db now newToken email password name =
        Except.ok (⟨newToken, signupPatch password name u⟩,
          { users := db.users.map (fun x =>
              if x.id == u.id then signupPatch password name x else x),
            sessions := db.sessions ++ [⟨db.nextId, u.id, newToken, now + sessionLifetime⟩],
            objects := db.objects,
            objectImages := db.objectImages,
            nextId := db.nextId + 1 })) := by
  refine ⟨?_, ?_, ?_⟩
  · intro h
    unfold signup
    rw [h]
  · intro u h hcond
    unfold signup
    rw [h]
    rcases hcond with h1 | h1 <;> simp [h1]
  · intro u hfind h1 h2 huniq
    have hmem : u ∈ db.users :=
      List.mem_of_find?_eq_some (by simpa [findUserByEmail] using hfind)
    have hfound :
        getUser
          { db with users := db.users.map (fun x =>
              if x.id == u.id then signupPatch password name x else x) } u.id =
          some (signupPatch password name u) :=
      find_patched (signupPatch password name) (fun x => rfl) db.users u hmem huniq
    unfold signup
    rw [hfind]
    have hguard : (u.active || !u.isTempPassword) = false := by simp [h1, h2]
    simp only [hguard, Bool.false_eq_true, if_false]
    rw [hfound]
    rfl

/-- C7 witness: signing up the provisioned placeholder `exProvisioned` of
`exDB5` succeeds with the activated user and a fresh session. -/
theorem C7_witness :
    signup exDB5 0 "tk" "neu@ex.de" "npw" "Neu" =
      Except.ok (⟨"tk", signupPatch "npw" "Neu" exProvisioned⟩,
        { users := exDB5.users.map (fun x =>
            if x.id == exProvisioned.id then signupPatch "npw" "Neu" x else x),
          sessions := exDB5.sessions ++
            [⟨exDB5.nextId, exProvisioned.id, "tk", 0 + sessionLifetime⟩],
          objects := exDB5.objects,
          objectImages := exDB5.objectImages,
          nextId := exDB5.nextId + 1 }) :=
  (C7_theorem exDB5 0 "tk" "neu@ex.de" "npw" "Neu").2.2 exProvisioned rfl rfl rfl
    (by decide)

/-- C8: for every released object, `updateObject` succeeds for an admin actor
with a valid session and fails with the released-locked error for every
non-admin actor, even the creator or an assignee. -/
theorem C8_theorem (db : DB) (now : Nat) (token : String) (objectId : Nat)
    (a : UpdateArgs) (u : User) (o : Obj)
    (hu : getUserFromSession db now token = some u)
    (ho : getObj db objectId = some o)
    (hst : o.status = Status.freigegeben) :
    (u.role = Role.admin →
      updateObject db now token objectId a =
        Except.ok (patchObj db objectId (applyUpdate a))) ∧
    (u.role ≠ Role.admin →
      (o.createdBy == u.id || assignedIncludes o u.id) = true →
      updateObject db now token objectId a =
        Except.error "Object is released and cannot be edited by users") := by
  constructor
  · intro hadm
    unfold updateObject canAccessObject
    rw [hu, ho]
    simp [hadm, hst]
  · intro hadm hacc
    unfold updateObject canAccessObject
    rw [hu, ho]
    simp [hadm, hst, hacc]

/-- C8 witness: on the released object 11 of `exDB`, the admin session
succeeds and the non-admin creator session is rejected. -/
theorem C8_witness :
    updateObject exDB 0 "atok" 11 {} =
      Except.ok (patchObj exDB 11 (applyUpdate {})) ∧
    updateObject exDB 0 "utok" 11 {} =
      Except.error "Object is released and cannot be edited by users" :=
  ⟨(C8_theorem exDB 0 "atok" 11 {} exAdmin exReleased rfl rfl rfl).1 rfl,
   (C8_theorem exDB 0 "utok" 11 {} exUser exReleased rfl rfl rfl).2
     (by decide) (by decide)⟩

/-- C9: both admin-triggered `deleteUser` and `resetPassword` delete every
session of the target user, so afterwards `validateSession` returns null for
every token that (in the prior state) belonged only to that user. -/
theorem C9_theorem (db db₁ db₂ : DB) (now now₂ : Nat) (atok npw t : String)
    (uid : Nat)
    (hTok : ∀ s ∈ db.sessions, s.token = t → s.userId = uid) :
    (Admin.deleteUser db now atok uid = Except.ok db₁ →
      validateSession db₁ now₂ t = none) ∧
    (Admin.resetPassword db now atok uid npw = Except.ok db₂ →
      validateSession db₂ now₂ t = none) := by
  have hnone : (db.sessions.filter (fun s => s.userId != uid)).find?
      (fun s => s.token == t) = none := by
    apply List.find?_eq_none.mpr
    intro s hs
    obtain ⟨hmem, hstay⟩ := List.mem_filter.mp hs
    intro htok
    have huid : s.userId = uid := hTok s hmem (by simpa using htok)
    simp [huid] at hstay
  have hval : ∀ d : DB, d.sessions = db.sessions.filter (fun s => s.userId != uid) →
      validateSession d now₂ t = none := by
    intro d hd
    unfold validateSession getUserFromSession findSessionByToken
    rw [hd, hnone]
  constructor
  · intro h
    unfold Admin.deleteUser at h
    cases hra : Admin.requireAdmin db now atok with
    | error e => rw [hra] at h; cases h
    | ok adminUser =>
      rw [hra] at h
      by_cases hex : (db.users.any (fun x => x.id == uid)) = true
      · rw [if_pos hex] at h
        injection h with h'
        exact hval db₁ (by rw [← h'])
      · rw [if_neg hex] at h
        cases h
  · intro h
    unfold Admin.resetPassword at h
    cases hra : Admin.requireAdmin db now atok with
    | error e => rw [hra] at h; cases h
    | ok adminUser =>
      rw [hra] at h
      by_cases hex : (db.users.any (fun x => x.id == uid)) = true
      · rw [if_pos hex] at h
        injection h with h'
        exact hval db₂ (by rw [← h'])
      · rw [if_neg hex] at h
        cases h

/-- C9 witness: deleting or password-resetting user 2 of `exDB` makes the
previously valid token `"utok"` validate to null. -/
theorem C9_witness :
    validateSession exDBdel 0 "utok" = none ∧
    validateSession exDBreset 0 "utok" = none :=
  ⟨(C9_theorem exDB exDBdel exDBreset 0 0 "atok" "tmp9" "utok" 2 (by decide)).1 rfl,
   (C9_theorem exDB exDBdel exDBreset 0 0 "atok" "tmp9" "utok" 2 (by decide)).2 rfl⟩

/-- Lookup with a password-blind predicate agrees, up to `scrubUser`, on two
user tables that agree up to `scrubUser`. -/
theorem map_scrub_find (q : User → Bool) (hq : ∀ x, q (scrubUser x) = q x) :
    ∀ xs ys : List User, xs.map scrubUser = ys.map scrubUser →
      (xs.find? q).map scrubUser = (ys.find? q).map scrubUser := by
  intro xs
  induction xs with
  | nil =>
    intro ys h
    cases ys with
    | nil => rfl
    | cons b s => simp at h
  | cons a t ih =>
    intro ys h
    cases ys with
    | nil => simp at h
    | cons b s =>
      simp only [List.map_cons, List.cons.injEq] at h
      obtain ⟨hab, hts⟩ := h
      by_cases hqa : q a = true
      · have hqb : q b = true := by rw [← hq b, ← hab, hq a]; exact hqa
        rw [List.find?_cons_of_pos _ hqa, List.find?_cons_of_pos _ hqb]
        simpa using hab
      · have hqb : ¬ q b = true := by rw [← hq b, ← hab, hq a]; exact hqa
        rw [List.find?_cons_of_neg _ hqa, List.find?_cons_of_neg _ hqb]
        exact ih s hts

/-- Filtering with a password-blind predicate followed by `map` with a
password-blind function agrees on two user tables that agree up to
`scrubUser`. -/
theorem filter_map_scrub {β : Type} (q : User → Bool) (hq : ∀ x, q (scrubUser x) = q x)
    (g : User → β) (hg : ∀ x, g (scrubUser x) = g x) :
    ∀ xs ys : List User, xs.map scrubUser = ys.map scrubUser →
      (xs.filter q).map g = (ys.filter q).map g := by
  intro xs
  induction xs with
  | nil =>
    intro ys h
    cases ys with
    | nil => rfl
    | cons b s => simp at h
  | cons a t ih =>
    intro ys h
    cases ys with
    | nil => simp at h
    | cons b s =>
      simp only [List.map_cons, List.cons.injEq] at h
      obtain ⟨hab, hts⟩ := h
      have hqab : q a = q b := by rw [← hq a, ← hq b, hab]
      have hgab : g a = g b := by rw [← hg a, ← hg b, hab]
      by_cases hqa : q a = true
      · rw [List.filter_cons_of_pos hqa, List.filter_cons_of_pos (hqab ▸ hqa),
          List.map_cons, List.map_cons, hgab, ih s hts]
      · rw [List.filter_cons_of_neg hqa, List.filter_cons_of_neg (fun hc => hqa (hqab ▸ hc))]
        exact ih s hts

/-- Mapping a password-blind function agrees on two user tables that agree
up to `scrubUser`. -/
theorem map_scrub_map {β : Type} (g : User → β) (hg : ∀ x, g (scrubUser x) = g x) :
    ∀ xs ys : List User, xs.map scrubUser = ys.map scrubUser →
      xs.map g = ys.map g := by
  intro xs
  induction xs with
  | nil =>
    intro ys h
    cases ys with
    | nil => rfl
    | cons b s => simp at h
  | cons a t ih =>
    intro ys h
    cases ys with
    | nil => simp at h
    | cons b s =>
      simp only [List.map_cons, List.cons.injEq] at h
      obtain ⟨hab, hts⟩ := h
      have hgab : g a = g b := by rw [← hg a, ← hg b, hab]
      rw [List.map_cons, List.map_cons, hgab, ih s hts]

/-- Function `getUserFromSession` agrees up to `scrubUser` on two states that agree up
to `scrubUser` on users and exactly on sessions. -/
theorem getUserFromSession_scrub (db db' : DB) (now : Nat) (token : String)
    (husers : db.users.map scrubUser = db'.users.map scrubUser)
    (hsess : db.sessions = db'.sessions) :
    (getUserFromSession db now token).map scrubUser =
      (getUserFromSession db' now token).map scrubUser := by
  unfold getUserFromSession findSessionByToken getUser
  rw [← hsess]
  cases hfind : db.sessions.find? (fun s => s.token == token) with
  | none => rfl
  | some s =>
    dsimp only
    by_cases hexp : s.expiresAt < now
    · rw [if_pos hexp, if_pos hexp]
    · simp only [if_neg hexp]
      exact map_scrub_find (fun x => x.id == s.userId) (fun x => rfl)
        db.users db'.users husers

/-- Function `Admin.requireAdmin` agrees up to `scrubUser` on two states that agree up
to `scrubUser` on users and exactly on sessions. -/
theorem requireAdmin_scrub (db db' : DB) (now : Nat) (token : String)
    (husers : db.users.map scrubUser = db'.users.map scrubUser)
    (hsess : db.sessions = db'.sessions) :
    (Admin.requireAdmin db now token).map scrubUser =
      (Admin.requireAdmin db' now token).map scrubUser := by
  unfold Admin.requireAdmin findSessionByToken getUser
  rw [← hsess]
  cases hfind : db.sessions.find? (fun s => s.token == token) with
  | none => rfl
  | some s =>
    dsimp only
    by_cases hexp : s.expiresAt < now
    · rw [if_pos hexp, if_pos hexp]
    · simp only [if_neg hexp]
      have h := map_scrub_find (fun x => x.id == s.userId) (fun x => rfl)
        db.users db'.users husers
      cases h1 : db.users.find? (fun x => x.id == s.userId) with
      | none =>
        cases h2 : db'.users.find? (fun x => x.id == s.userId) with
        | none => rfl
        | some w => rw [h1, h2] at h; simp at h
      | some v =>
        cases h2 : db'.users.find? (fun x => x.id == s.userId) with
        | none => rw [h1, h2] at h; simp at h
        | some w =>
          rw [h1, h2] at h
          have hvw : scrubUser v = scrubUser w := by simpa using h
          have hrole : v.role = w.role := by
            have := congrArg User.role hvw
            simpa [scrubUser] using this
          dsimp only
          rw [hrole]
          by_cases hr : (w.role != Role.admin) = true
          · rw [if_pos hr, if_pos hr]
          · rw [if_neg hr, if_neg hr]
            simp only [Except.map]
            rw [show scrubUser v = scrubUser w from hvw]

/-- C10: no user-listing query depends on any stored password. For two states
that differ at most in stored passwords, both `Admin.getAllUsers` (which
returns `"***"` in every password field) and the general `getAllUsers`
(which projects to id/name/email/role of active users) return identical
results; moreover every row the admin query returns carries the literal
`"***"` as password. -/
theorem C10_theorem (db db' : DB) (now : Nat) (token : String)
    (search : Option String)
    (husers : db.users.map scrubUser = db'.users.map scrubUser)
    (hsess : db.sessions = db'.sessions) :
    Admin.getAllUsers db now token search = Admin.getAllUsers db' now token search ∧
    getAllUsers db now token = getAllUsers db' now token ∧
    (∀ l, Admin.getAllUsers db now token search = Except.ok l →
      ∀ x ∈ l, x.password = "***") := by
  refine ⟨?_, ?_, ?_⟩
  · have hra := requireAdmin_scrub db db' now token husers hsess
    unfold Admin.getAllUsers
    cases h1 : Admin.requireAdmin db now token with
    | error e =>
      cases h2 : Admin.requireAdmin db' now token with
      | error f =>
        rw [h1, h2] at hra
        simp only [Except.map] at hra
        injection hra with he
        rw [he]
      | ok w => rw [h1, h2] at hra; simp [Except.map] at hra
    | ok v =>
      cases h2 : Admin.requireAdmin db' now token with
      | error f => rw [h1, h2] at hra; simp [Except.map] at hra
      | ok w =>
        rcases search with _ | s
        · exact congrArg Except.ok
            (map_scrub_map Admin.maskPassword (fun x => rfl)
              db.users db'.users husers)
        · by_cases hlen : s.length ≥ 3
          · simp only [if_pos hlen]
            exact congrArg Except.ok
              (filter_map_scrub (Admin.userSearchMatches s.toLower) (fun x => rfl)
                Admin.maskPassword (fun x => rfl)
                db.users db'.users husers)
          · simp only [if_neg hlen]
            exact congrArg Except.ok
              (map_scrub_map Admin.maskPassword (fun x => rfl)
                db.users db'.users husers)
  · have hg := getUserFromSession_scrub db db' now token husers hsess
    unfold getAllUsers
    cases h1 : getUserFromSession db now token with
    | none =>
      cases h2 : getUserFromSession db' now token with
      | none => rfl
      | some w => rw [h1, h2] at hg; simp at hg
    | some v =>
      cases h2 : getUserFromSession db' now token with
      | none => rw [h1, h2] at hg; simp at hg
      | some w =>
        exact congrArg Except.ok
          (filter_map_scrub (fun u => u.active) (fun x => rfl)
            toPublicUser (fun x => rfl)
            db.users db'.users husers)
  · intro l hl x hx
    unfold Admin.getAllUsers at hl
    cases h1 : Admin.requireAdmin db now token with
    | error e => rw [h1] at hl; cases hl
    | ok v =>
      rw [h1] at hl
      injection hl with hl'
      subst hl'
      obtain ⟨u, _, rfl⟩ := List.mem_map.mp hx
      rfl

/-- C10 witness: `exDBpw` differs from `exDB` in every stored password, yet
both user-listing queries return identical results. -/
theorem C10_witness :
    Admin.getAllUsers exDB 0 "atok" none = Admin.getAllUsers exDBpw 0 "atok" none ∧
    getAllUsers exDB 0 "utok" = getAllUsers exDBpw 0 "utok" :=
  ⟨(C10_theorem exDB exDBpw 0 "atok" none (by decide) rfl).1,
   (C10_theorem exDB exDBpw 0 "utok" none (by decide) rfl).2.1⟩

end Objektverwaltung
